import Mathlib

/-!
Verification of the command/telemetry relay described in spec.md against the
source file src/streamlit_rover_control.py.  The controller state, the MQTT
callbacks `on_connect` / `on_message`, and the operations `send_command` and
`disconnect` are embedded shallowly below, following the Python source line by
line.  Transport behaviour (the result of `client.publish`) and inbound payload
parseability are oracles supplied as explicit arguments, and UI calls
(`st.success` / `st.warning` / `st.error`), `client.subscribe` and the
`client.loop_stop` / `client.disconnect` calls are recorded as output traces.
-/

namespace RoverControl

/-- `MQTT_TOPIC_COMMAND` from the source (line 17). -/
def MQTT_TOPIC_COMMAND : String := "esp32car/command"

/-- `MQTT_TOPIC_STATUS` from the source (line 18). -/
def MQTT_TOPIC_STATUS : String := "esp32car/status"

/-- A parsed status dictionary, as produced by `json.loads` on a telemetry
payload.  The fields are the keys the script reads out of the dict
(`car_id`, `status`, `command`, `wifi_rssi`, `uptime`, `free_heap`,
`timestamp`). -/
structure StatusData where
  car_id : String
  status : String
  command : String
  wifi_rssi : Int
  uptime : Nat
  free_heap : Nat
  timestamp : Nat
  deriving DecidableEq, Repr

/-- An inbound MQTT message payload: either bytes that decode and parse to a
status dict, or bytes on which `msg.payload.decode()` / `json.loads` raises
(carrying the exception text). -/
inductive Payload where
  | wellFormed (d : StatusData)
  | malformed (e : String)
  deriving DecidableEq, Repr

/-- `json.loads(msg.payload.decode())` as a fallible operation. -/
def parsePayload : Payload → Except String StatusData
  | .wellFormed d => .ok d
  | .malformed e => .error e

/-- A Streamlit UI call made by the controller (`st.success`, `st.warning`,
`st.error`). -/
inductive UiEvent where
  | success (msg : String)
  | warning (msg : String)
  | error (msg : String)
  deriving DecidableEq, Repr

/-- The mutable fields of `MQTTController` relevant to the callbacks and
commands: `self.connected`, `self.last_status` (initially the empty dict,
modelled as `none`), and `self.status_queue` (modelled as the list of enqueued
status dicts). -/
structure ControllerState where
  connected : Bool
  last_status : Option StatusData
  statusQueue : List StatusData
  deriving DecidableEq, Repr

/-- The state right after `MQTTController.__init__`. -/
def initialController : ControllerState :=
  { connected := false, last_status := none, statusQueue := [] }

/-- An action performed by the `on_connect` callback.  `scheduleRetry` is in
the vocabulary so that retry-related properties can be stated; note that no
code path of the source emits it (the script schedules no reconnect of its
own). -/
inductive SessionAction where
  | subscribe (topic : String)
  | scheduleRetry
  | ui (e : UiEvent)
  deriving DecidableEq, Repr

/-- MQTT CONNACK return codes 4 (bad user name or password) and 5 (not
authorized) are the authentication rejections. -/
def isAuthFailure (rc : Nat) : Bool := rc == 4 || rc == 5

/-- `MQTTController.on_connect` (source lines 29-36): on `rc == 0` set
`connected = True`, report success and subscribe to the status topic;
otherwise set `connected = False` and report the error.  Nothing is retried
or scheduled in either branch. -/
def on_connect (s : ControllerState) (rc : Nat) :
    ControllerState × List SessionAction :=
  if rc == 0 then
    ({ s with connected := true },
     [SessionAction.ui (UiEvent.success "Connected to MQTT broker successfully!"),
      SessionAction.subscribe MQTT_TOPIC_STATUS])
  else
    ({ s with connected := false },
     [SessionAction.ui (UiEvent.error ("Failed to connect to MQTT broker. Code: " ++ toString rc))])

/-- `MQTTController.on_message` (source lines 38-44): parse the payload; on
success store it as `last_status` and enqueue it; on any exception report an
`st.error` and return normally (the exception never propagates). -/
def on_message (s : ControllerState) (p : Payload) :
    ControllerState × List UiEvent :=
  match parsePayload p with
  | .ok d => ({ s with last_status := some d, statusQueue := s.statusQueue ++ [d] }, [])
  | .error e => (s, [UiEvent.error ("Error processing status message: " ++ e)])

/-- The dict built by `send_command` (source lines 60-64): keys `command`,
`car_id`, `timestamp`. -/
structure CommandMessage where
  command : String
  car_id : String
  timestamp : Nat
  deriving DecidableEq, Repr

/-- `json.dumps(message)`: the serialized command payload as an ordered list
of key/value pairs. -/
def serializeCommand (m : CommandMessage) : List (String × String) :=
  [("command", m.command), ("car_id", m.car_id), ("timestamp", toString m.timestamp)]

/-- The set of keys of the serialized command payload. -/
def commandPayloadKeys (m : CommandMessage) : List String :=
  (serializeCommand m).map Prod.fst

/-- Behaviour of the `client.publish` call, supplied as an oracle: it either
returns a result object with return code `rc` (`MQTT_ERR_SUCCESS = 0`), or
raises an exception with message `e`. -/
inductive PublishOutcome where
  | returns (rc : Nat)
  | raises (e : String)
  deriving DecidableEq, Repr

/-- The observable outcome of one `send_command` call: the controller state
after the call, the messages handed to `client.publish`, the UI calls made,
and the boolean return value. -/
structure SendResult where
  state : ControllerState
  publishes : List CommandMessage
  ui : List UiEvent
  ok : Bool
  deriving DecidableEq, Repr

/-- `MQTTController.send_command` (source lines 55-75).  `now_ms` is the value
of `int(time.time() * 1000)` at the call; `po` is the behaviour of the
`client.publish` call if one is made.  Not connected: warn and return `False`
without publishing.  Connected: build the message, publish it, and return
`True` iff the publish returned `MQTT_ERR_SUCCESS`; an exception from publish
is caught and reported. -/
def send_command (s : ControllerState) (command : String) (car_id : String)
    (now_ms : Nat) (po : PublishOutcome) : SendResult :=
  if !s.connected then
    { state := s, publishes := [],
      ui := [UiEvent.warning "Not connected to MQTT broker"], ok := false }
  else
    let message : CommandMessage :=
      { command := command, car_id := car_id, timestamp := now_ms }
    match po with
    | .returns rc =>
      if rc == 0 then
        { state := s, publishes := [message], ui := [], ok := true }
      else
        { state := s, publishes := [message],
          ui := [UiEvent.error ("Failed to send command: " ++ toString rc)], ok := false }
    | .raises e =>
      { state := s, publishes := [message],
        ui := [UiEvent.error ("Error sending command: " ++ e)], ok := false }

/-- A transport call made by `disconnect`. -/
inductive TransportCall where
  | loopStop
  | clientDisconnect
  deriving DecidableEq, Repr

/-- `MQTTController.disconnect` (source lines 77-81): only when `connected`
is set, stop the loop, disconnect the client and clear the flag; otherwise do
nothing. -/
def disconnect (s : ControllerState) : ControllerState × List TransportCall :=
  if s.connected then
    ({ s with connected := false }, [TransportCall.loopStop, TransportCall.clientDisconnect])
  else
    (s, [])

/-- Modelled from the spec: the `TelemetrySnapshot` record of spec.md section
3; no such type exists in src/.  The float `battery_voltage` is modelled as a
rational. -/
structure TelemetrySnapshot where
  vehicle_id : String
  last_command : String
  speed : Int
  wifi_rssi : Int
  uptime_ms : Nat
  free_heap_bytes : Nat
  battery_percentage : Nat
  battery_voltage : Rat
  charging : Bool
  received_at : Nat
  source_timestamp : Nat
  deriving DecidableEq, Repr

/-- Modelled from the spec: `is_stale(vehicle_id, now, threshold)` of spec.md
section 4.3; no staleness check exists in src/.  Returns true when
`now - snapshot.received_at > threshold`, or when no snapshot is held for the
vehicle. -/
def is_stale (snapshots : String → Option TelemetrySnapshot)
    (vehicle : String) (now threshold : Nat) : Bool :=
  match snapshots vehicle with
  | none => true
  | some t => decide (now - t.received_at > threshold)

/-! ## Theorems -/

/-- C1, counterexample: a successful submission while connected publishes a
payload whose key set has no `sequence` key at all, so no published command
carries a sequence number, let alone a strictly increasing one. -/
theorem c1_counterexample :
    (send_command { connected := true, last_status := none, statusQueue := [] }
        "FORWARD" "ALL" 1000 (.returns 0)).ok = true
    ∧ (send_command { connected := true, last_status := none, statusQueue := [] }
        "FORWARD" "ALL" 1000 (.returns 0)).publishes
      = [{ command := "FORWARD", car_id := "ALL", timestamp := 1000 }]
    ∧ "sequence" ∉ commandPayloadKeys
        { command := "FORWARD", car_id := "ALL", timestamp := 1000 } := by
  decide

/-- C1, amended: `send_command` assigns no sequence number at all.  Every
message handed to `client.publish` has exactly the keys `command`, `car_id`
and `timestamp`; no `sequence` key exists, so no counter can overflow and
nothing panics. -/
theorem c1_no_sequence_field (s : ControllerState) (cmd cid : String)
    (t : Nat) (po : PublishOutcome) (m : CommandMessage)
    (hm : m ∈ (send_command s cmd cid t po).publishes) :
    commandPayloadKeys m = ["command", "car_id", "timestamp"]
    ∧ "sequence" ∉ commandPayloadKeys m := by
  refine ⟨rfl, ?_⟩
  simp [commandPayloadKeys, serializeCommand]

/-- C1 witness: the amended statement evaluated on a concrete submission. -/
theorem c1_no_sequence_field_witness :
    commandPayloadKeys { command := "FORWARD", car_id := "ALL", timestamp := 5 }
      = ["command", "car_id", "timestamp"]
    ∧ "sequence" ∉ commandPayloadKeys
        { command := "FORWARD", car_id := "ALL", timestamp := 5 } :=
  c1_no_sequence_field
    { connected := true, last_status := none, statusQueue := [] }
    "FORWARD" "ALL" 5 (.returns 0)
    { command := "FORWARD", car_id := "ALL", timestamp := 5 } (by decide)

/-- C2, counterexample: two FORWARD submissions 100ms apart while connected
both succeed and both publish (two publishes total); the second neither fails
nor is dropped, so no Debounced error exists. -/
theorem c2_counterexample :
    (send_command { connected := true, last_status := none, statusQueue := [] }
        "FORWARD" "ALL" 0 (.returns 0)).ok = true
    ∧ (send_command { connected := true, last_status := none, statusQueue := [] }
        "FORWARD" "ALL" 0 (.returns 0)).publishes.length = 1
    ∧ (send_command
        (send_command { connected := true, last_status := none, statusQueue := [] }
          "FORWARD" "ALL" 0 (.returns 0)).state
        "FORWARD" "ALL" 100 (.returns 0)).ok = true
    ∧ (send_command
        (send_command { connected := true, last_status := none, statusQueue := [] }
          "FORWARD" "ALL" 0 (.returns 0)).state
        "FORWARD" "ALL" 100 (.returns 0)).publishes.length = 1
    ∧ (100 : Nat) - 0 < 200 := by
  decide

/-- C2, amended: `send_command` performs no debouncing.  Two submissions of
the same kind for the same vehicle within 200ms while connected each result
in exactly one publish and both succeed, exactly as two STOP submissions
would; no submission is ever dropped for arriving too soon. -/
theorem c2_no_debounce (s : ControllerState) (cmd cid : String) (t1 t2 : Nat)
    (hc : s.connected = true) (hdt : t2 - t1 < 200) :
    (send_command s cmd cid t1 (.returns 0)).publishes.length = 1
    ∧ (send_command s cmd cid t1 (.returns 0)).ok = true
    ∧ (send_command (send_command s cmd cid t1 (.returns 0)).state
        cmd cid t2 (.returns 0)).publishes.length = 1
    ∧ (send_command (send_command s cmd cid t1 (.returns 0)).state
        cmd cid t2 (.returns 0)).ok = true := by
  simp [send_command, hc]

/-- C2 witness: the amended statement evaluated on two FORWARD submissions
100ms apart. -/
theorem c2_no_debounce_witness :
    (send_command { connected := true, last_status := none, statusQueue := [] }
        "FORWARD" "ALL" 0 (.returns 0)).publishes.length = 1
    ∧ (send_command { connected := true, last_status := none, statusQueue := [] }
        "FORWARD" "ALL" 0 (.returns 0)).ok = true
    ∧ (send_command
        (send_command { connected := true, last_status := none, statusQueue := [] }
          "FORWARD" "ALL" 0 (.returns 0)).state
        "FORWARD" "ALL" 100 (.returns 0)).publishes.length = 1
    ∧ (send_command
        (send_command { connected := true, last_status := none, statusQueue := [] }
          "FORWARD" "ALL" 0 (.returns 0)).state
        "FORWARD" "ALL" 100 (.returns 0)).ok = true :=
  c2_no_debounce { connected := true, last_status := none, statusQueue := [] }
    "FORWARD" "ALL" 0 100 rfl (by decide)

/-- C3: whenever the controller is not connected, `send_command` makes no
publish call, emits the not-connected warning, returns failure and leaves the
state unchanged. -/
theorem c3_not_connected (s : ControllerState) (cmd cid : String) (t : Nat)
    (po : PublishOutcome) (hc : s.connected = false) :
    send_command s cmd cid t po =
      { state := s, publishes := [],
        ui := [UiEvent.warning "Not connected to MQTT broker"], ok := false } := by
  simp [send_command, hc]

/-- C3 witness: a concrete disconnected submission. -/
theorem c3_not_connected_witness :
    send_command initialController "FORWARD" "ALL" 7 (.returns 0) =
      { state := initialController, publishes := [],
        ui := [UiEvent.warning "Not connected to MQTT broker"], ok := false } :=
  c3_not_connected initialController "FORWARD" "ALL" 7 (.returns 0) rfl

/-- C4, counterexample: ingesting a well-formed telemetry message whose
timestamp (500) is older than that of the held snapshot (1000) replaces the
held snapshot with the older message instead of leaving it unchanged. -/
theorem c4_counterexample :
    (on_message
      { connected := true,
        last_status := some { car_id := "car1", status := "OK", command := "FORWARD",
                              wifi_rssi := -40, uptime := 5000, free_heap := 10000,
                              timestamp := 1000 },
        statusQueue := [] }
      (Payload.wellFormed { car_id := "car1", status := "OK", command := "STOP",
                            wifi_rssi := -40, uptime := 4000, free_heap := 10000,
                            timestamp := 500 })).1.last_status
      = some { car_id := "car1", status := "OK", command := "STOP",
               wifi_rssi := -40, uptime := 4000, free_heap := 10000,
               timestamp := 500 }
    ∧ (500 : Nat) < 1000
    ∧ (some { car_id := "car1", status := "OK", command := "STOP",
              wifi_rssi := -40, uptime := 4000, free_heap := 10000,
              timestamp := 500 } : Option StatusData)
      ≠ some { car_id := "car1", status := "OK", command := "FORWARD",
               wifi_rssi := -40, uptime := 5000, free_heap := 10000,
               timestamp := 1000 } := by
  decide

/-- C4, amended: `on_message` performs no timestamp comparison.  Every
successfully parsed telemetry message replaces the held snapshot and is
enqueued, even when its timestamp is older than the held snapshot's, and no
error is returned to the caller. -/
theorem c4_always_replaces (s : ControllerState) (d : StatusData) :
    on_message s (Payload.wellFormed d) =
      ({ s with last_status := some d, statusQueue := s.statusQueue ++ [d] }, []) :=
  rfl

/-- C5, counterexample: the payload published for a successful FORWARD
submission has exactly the keys `command`, `car_id`, `timestamp`; it has no
`speed`, `sequence`, `vehicle_id` or `timestamp_ms` key, and `send_command`
takes no speed argument to validate. -/
theorem c5_counterexample :
    (send_command { connected := true, last_status := none, statusQueue := [] }
        "FORWARD" "ALL" 1000 (.returns 0)).publishes.map commandPayloadKeys
      = [["command", "car_id", "timestamp"]]
    ∧ "speed" ∉ commandPayloadKeys
        { command := "FORWARD", car_id := "ALL", timestamp := 1000 }
    ∧ "vehicle_id" ∉ commandPayloadKeys
        { command := "FORWARD", car_id := "ALL", timestamp := 1000 }
    ∧ "timestamp_ms" ∉ commandPayloadKeys
        { command := "FORWARD", car_id := "ALL", timestamp := 1000 } := by
  decide

/-- C5, amended: every payload published by `send_command` serializes to
exactly the three pairs `command`, `car_id`, `timestamp` carrying the call's
arguments; there is no speed field, no speed validation, and no InvalidSpeed
failure. -/
theorem c5_payload_fields (s : ControllerState) (cmd cid : String) (t : Nat)
    (po : PublishOutcome) (m : CommandMessage)
    (hm : m ∈ (send_command s cmd cid t po).publishes) :
    serializeCommand m = [("command", cmd), ("car_id", cid), ("timestamp", toString t)] := by
  by_cases hc : s.connected
  · cases po with
    | returns rc =>
      by_cases hrc : rc = 0
      · simp [send_command, hc, hrc] at hm
        simp [hm, serializeCommand]
      · simp [send_command, hc, hrc] at hm
        simp [hm, serializeCommand]
    | raises e =>
      simp [send_command, hc] at hm
      simp [hm, serializeCommand]
  · simp [send_command, hc] at hm

/-- C5 witness: the amended statement evaluated on a concrete successful
submission. -/
theorem c5_payload_fields_witness :
    serializeCommand { command := "FORWARD", car_id := "ALL", timestamp := 9 }
      = [("command", "FORWARD"), ("car_id", "ALL"), ("timestamp", toString (9 : Nat))] :=
  c5_payload_fields { connected := true, last_status := none, statusQueue := [] }
    "FORWARD" "ALL" 9 (.returns 0)
    { command := "FORWARD", car_id := "ALL", timestamp := 9 } (by decide)

/-- C6: any payload that fails to parse is dropped: the handler reports the
processing error through the UI, the whole controller state (in particular
the held snapshot) is unchanged, and the handler returns normally — the
caught exception never propagates out of `on_message`. -/
theorem c6_malformed (s : ControllerState) (p : Payload) (e : String)
    (hp : parsePayload p = Except.error e) :
    on_message s p = (s, [UiEvent.error ("Error processing status message: " ++ e)]) := by
  unfold on_message
  rw [hp]

/-- C6 witness: a concrete malformed payload. -/
theorem c6_malformed_witness :
    on_message initialController (Payload.malformed "bad json")
      = (initialController,
         [UiEvent.error ("Error processing status message: " ++ "bad json")]) :=
  c6_malformed initialController (Payload.malformed "bad json") "bad json" rfl

/-- C7: `is_stale` returns true exactly when no snapshot is held or
`now - received_at > threshold`; at exactly `now - received_at = threshold`
it returns false. -/
theorem c7_is_stale (snapshots : String → Option TelemetrySnapshot)
    (v : String) (now th : Nat) :
    (is_stale snapshots v now th = true ↔
      (snapshots v = none ∨ ∃ t, snapshots v = some t ∧ now - t.received_at > th))
    ∧ ∀ t, snapshots v = some t → now - t.received_at = th →
        is_stale snapshots v now th = false := by
  constructor
  · cases h : snapshots v with
    | none => simp [is_stale, h]
    | some t => simp [is_stale, h]
  · intro t ht he
    simp [is_stale, ht, he]

/-- C7 witness: with a held snapshot received at 70, `now = 100` and
`threshold = 30` (the boundary), the vehicle is not stale. -/
theorem c7_is_stale_witness :
    is_stale
      (fun _ => some { vehicle_id := "A", last_command := "STOP", speed := 0,
                       wifi_rssi := -40, uptime_ms := 0, free_heap_bytes := 0,
                       battery_percentage := 50, battery_voltage := 4,
                       charging := false, received_at := 70, source_timestamp := 70 })
      "A" 100 30 = false :=
  (c7_is_stale
      (fun _ => some { vehicle_id := "A", last_command := "STOP", speed := 0,
                       wifi_rssi := -40, uptime_ms := 0, free_heap_bytes := 0,
                       battery_percentage := 50, battery_voltage := 4,
                       charging := false, received_at := 70, source_timestamp := 70 })
      "A" 100 30).2 _ rfl rfl

/-- C8, counterexample: return code 3 (server unavailable) is not an
authentication rejection, yet `on_connect` handles it exactly like one —
connected becomes false and no retry is scheduled — so non-auth connect
failures are not retried either. -/
theorem c8_counterexample :
    isAuthFailure 3 = false
    ∧ (3 : Nat) ≠ 0
    ∧ (on_connect initialController 3).1.connected = false
    ∧ SessionAction.scheduleRetry ∉ (on_connect initialController 3).2 := by
  decide

/-- C8, amended: on any failed connect (`rc ≠ 0`), authentication rejection
or not, `on_connect` sets connected to false and schedules no retry; the code
does not distinguish auth failures from other connect failures. -/
theorem c8_no_retry (s : ControllerState) (rc : Nat) (h : rc ≠ 0) :
    (on_connect s rc).1.connected = false
    ∧ SessionAction.scheduleRetry ∉ (on_connect s rc).2 := by
  simp [on_connect, h]

/-- C8 witness: the amended statement at the auth-rejection code 5. -/
theorem c8_no_retry_witness :
    (on_connect initialController 5).1.connected = false
    ∧ SessionAction.scheduleRetry ∉ (on_connect initialController 5).2 :=
  c8_no_retry initialController 5 (by decide)

/-- C9: `disconnect` is idempotent — on an already-disconnected controller it
makes no transport call and leaves the state unchanged, and a second
`disconnect` after any `disconnect` is a no-op, so two `disconnect`s have the
effect of one. -/
theorem c9_disconnect_idempotent (s : ControllerState) :
    (s.connected = false → disconnect s = (s, []))
    ∧ disconnect (disconnect s).1 = ((disconnect s).1, []) := by
  constructor
  · intro h
    simp [disconnect, h]
  · by_cases h : s.connected <;> simp [disconnect, h]

/-- C9 witness: a concrete already-disconnected controller. -/
theorem c9_disconnect_idempotent_witness :
    disconnect initialController = (initialController, []) :=
  (c9_disconnect_idempotent initialController).1 rfl

/-- C10: `send_command` never modifies the controller state — in every branch
(not connected, publish success, publish failure, publish exception) the
state after the call, in particular `connected` and `last_status`, equals the
state before. -/
theorem c10_send_command_frame (s : ControllerState) (cmd cid : String)
    (t : Nat) (po : PublishOutcome) :
    (send_command s cmd cid t po).state = s
    ∧ (send_command s cmd cid t po).state.connected = s.connected
    ∧ (send_command s cmd cid t po).state.last_status = s.last_status := by
  have h : (send_command s cmd cid t po).state = s := by
    by_cases hc : s.connected
    · cases po with
      | returns rc => by_cases hrc : rc = 0 <;> simp [send_command, hc, hrc]
      | raises e => simp [send_command, hc]
    · simp [send_command, hc]
  exact ⟨h, by rw [h], by rw [h]⟩

end RoverControl
